import Mathlib

/-!
Shallow embedding of the MedWhisper health-risk pipeline
(feature engineering → disease risk prediction → scoring/report synthesis).

Conventions of the embedding:
- Python floats are modelled as exact rationals (`ℚ`).
- Python dicts carrying features are modelled as association lists
  `List (String × ℚ)` in insertion order; `dict.get(k, d)` becomes `fgetD`.
- Fallible code (`try`/`except`) is modelled with `Except Unit`; a caught
  exception corresponds to `.error ()`.
- `math.sqrt`-like irrational operations (pandas `Series.std`) are
  abstracted by a square-root parameter `sq : ℚ → ℚ`; no theorem below
  depends on its values.
-/

/-- Risk tier returned by `RiskScoringEngine._get_risk_level`
(the strings `low`, `medium`, `high`, `very_high`). -/
inductive RiskLevel
  | low
  | medium
  | high
  | very_high
deriving DecidableEq, Repr

/-- Numeric rank of a risk tier, used to state monotonicity. -/
def levelRank : RiskLevel → Nat
  | .low => 0
  | .medium => 1
  | .high => 2
  | .very_high => 3

/-- Per-disease cut points `{low, medium, high}`. -/
structure Thresholds where
  low : ℚ
  medium : ℚ
  high : ℚ
deriving DecidableEq, Repr

/-- Default cut points used by `_get_risk_level` for diseases that are not
in the configured threshold dictionary: `{'low': 0.3, 'medium': 0.5, 'high': 0.7}`. -/
def defaultThresholds : Thresholds := ⟨3/10, 1/2, 7/10⟩

/-- Effective cut points per disease:
`self.risk_thresholds.get(disease, {'low': 0.3, 'medium': 0.5, 'high': 0.7})`
where `self.risk_thresholds` is `Config.RISK_THRESHOLDS` (the engine is
constructed with it in `routes.py`). -/
def riskThresholds (disease : String) : Thresholds :=
  if disease = "diabetes" then ⟨3/10, 1/2, 7/10⟩
  else if disease = "hypertension" then ⟨3/10, 1/2, 7/10⟩
  else if disease = "liver_disease" then ⟨1/4, 9/20, 13/20⟩
  else if disease = "cardiac_risk" then ⟨7/20, 11/20, 3/4⟩
  else if disease = "mental_health" then ⟨3/10, 1/2, 7/10⟩
  else defaultThresholds

/-- `RiskScoringEngine._get_risk_level`: strict `<` against the cut points. -/
def get_risk_level (score : ℚ) (disease : String) : RiskLevel :=
  let thresholds := riskThresholds disease
  if score < thresholds.low then .low
  else if score < thresholds.medium then .medium
  else if score < thresholds.high then .high
  else .very_high

theorem riskThresholds_strict_mono (d : String) :
    (riskThresholds d).low < (riskThresholds d).medium ∧
    (riskThresholds d).medium < (riskThresholds d).high := by
  unfold riskThresholds defaultThresholds
  split_ifs <;> exact ⟨by norm_num, by norm_num⟩

/-- C1: for every disease and every pair of scores in `[0,1]`, the level map
is monotonic non-decreasing; a score exactly equal to the `low` cut point
maps to `medium`; a score exactly equal to the `high` cut point maps to
`very_high`; and any score at or above the `high` cut point maps to
`very_high`. -/
theorem risk_level_mapping_c1 (disease : String) (s₁ s₂ : ℚ)
    (h₀ : 0 ≤ s₁) (h₁ : s₁ ≤ s₂) (h₂ : s₂ ≤ 1) :
    levelRank (get_risk_level s₁ disease) ≤ levelRank (get_risk_level s₂ disease)
    ∧ get_risk_level (riskThresholds disease).low disease = RiskLevel.medium
    ∧ get_risk_level (riskThresholds disease).high disease = RiskLevel.very_high
    ∧ (∀ s : ℚ, (riskThresholds disease).high ≤ s →
        get_risk_level s disease = RiskLevel.very_high) := by
  obtain ⟨hlm, hmh⟩ := riskThresholds_strict_mono disease
  refine ⟨?_, ?_, ?_, ?_⟩
  · unfold get_risk_level
    dsimp only
    split_ifs <;> simp [levelRank] <;> linarith
  · unfold get_risk_level
    dsimp only
    rw [if_neg (lt_irrefl _), if_pos hlm]
  · unfold get_risk_level
    dsimp only
    rw [if_neg (by linarith : ¬ (riskThresholds disease).high < (riskThresholds disease).low),
        if_neg (by linarith : ¬ (riskThresholds disease).high < (riskThresholds disease).medium),
        if_neg (lt_irrefl _)]
  · intro s hs
    unfold get_risk_level
    dsimp only
    rw [if_neg (by linarith : ¬ s < (riskThresholds disease).low),
        if_neg (by linarith : ¬ s < (riskThresholds disease).medium),
        if_neg (by linarith : ¬ s < (riskThresholds disease).high)]

theorem risk_level_mapping_c1_witness :
    ((0 : ℚ) ≤ 0 ∧ (0 : ℚ) ≤ 1 ∧ (1 : ℚ) ≤ 1) ∧
    (levelRank (get_risk_level 0 "diabetes") ≤ levelRank (get_risk_level 1 "diabetes")
      ∧ get_risk_level (riskThresholds "diabetes").low "diabetes" = RiskLevel.medium
      ∧ get_risk_level (riskThresholds "diabetes").high "diabetes" = RiskLevel.very_high
      ∧ (∀ s : ℚ, (riskThresholds "diabetes").high ≤ s →
          get_risk_level s "diabetes" = RiskLevel.very_high)) :=
  ⟨⟨le_refl 0, zero_le_one, le_refl 1⟩,
    risk_level_mapping_c1 ("diabetes") 0 1 (le_refl 0) zero_le_one (le_refl 1)⟩

/-- Arithmetic mean of a list of rationals (pandas `Series.mean` over the
non-missing entries; callers guard against the empty case). -/
def qmean (l : List ℚ) : ℚ := l.sum / l.length

/-- Sample variance with one delta degree of freedom, the square of pandas
`Series.std()`. For a single observation pandas yields NaN; this embedding
returns 0 there, and no theorem below touches that branch. -/
def sampleVar (l : List ℚ) : ℚ :=
  if l.length ≤ 1 then 0
  else ((l.map (fun v => (v - qmean l) ^ 2)).sum) / ((l.length : ℚ) - 1)

/-- Slope of the degree-1 least-squares fit of `ys` against the index
`0, 1, …` (`np.polyfit(np.arange(len(values)), values, 1)[0]`). -/
def olsSlope (ys : List ℚ) : ℚ :=
  let n : ℚ := ys.length
  let xs : List ℚ := (List.range ys.length).map (fun i => (i : ℚ))
  let xbar := xs.sum / n
  let ybar := ys.sum / n
  (((xs.zip ys).map (fun p => (p.1 - xbar) * (p.2 - ybar))).sum) /
    ((xs.map (fun x => (x - xbar) ^ 2)).sum)

/-- `HealthFeatureEngineer._calculate_trend`: drop the missing entries of the
column (in input order — the code does NOT reorder the records), return 0
when fewer than two values remain, otherwise the least-squares slope. -/
def calculate_trend (column : List (Option ℚ)) : ℚ :=
  let values := column.filterMap id
  if values.length < 2 then 0 else olsSlope values

/-- Nested `liver_enzymes` sub-panel of a lab record. -/
structure LiverEnzymes where
  alt : Option ℚ
  ast : Option ℚ
deriving DecidableEq, Repr

/-- Nested `kidney_function` sub-panel of a lab record. -/
structure KidneyFunction where
  creatinine : Option ℚ
  bun : Option ℚ
deriving DecidableEq, Repr

/-- One dated lab record; `none` models a key absent from the record dict. -/
structure LabRecord where
  glucose : Option ℚ := none
  hba1c : Option ℚ := none
  cholesterol : Option ℚ := none
  hdl : Option ℚ := none
  ldl : Option ℚ := none
  triglycerides : Option ℚ := none
  blood_pressure_systolic : Option ℚ := none
  blood_pressure_diastolic : Option ℚ := none
  heart_rate : Option ℚ := none
  liver_enzymes : Option LiverEnzymes := none
  kidney_function : Option KidneyFunction := none
deriving DecidableEq, Repr

/-- Breakfast/lunch/dinner booleans of a lifestyle record's `meals` dict. -/
structure Meals where
  breakfast : Bool := false
  lunch : Bool := false
  dinner : Bool := false
deriving DecidableEq, Repr

/-- One dated lifestyle record. -/
structure LifestyleRecord where
  sleep_hours : Option ℚ := none
  sleep_quality : Option String := none
  exercise_minutes : Option ℚ := none
  steps : Option ℚ := none
  water_intake_ml : Option ℚ := none
  alcohol_units : Option ℚ := none
  smoking : Option Bool := none
  diet_quality : Option String := none
  meals : Option Meals := none
deriving DecidableEq, Repr

/-- One dated mental-health record. -/
structure MentalRecord where
  stress_level : Option ℚ := none
  anxiety_level : Option ℚ := none
  mood : Option String := none
  social_interaction : Option String := none
  work_life_balance : Option String := none
deriving DecidableEq, Repr

/-- Family-history snapshot: relation strings per condition.  `none` at the
use site models an absent or empty (falsy) dict. -/
structure FamilyHistory where
  diabetes : List String := []
  hypertension : List String := []
  heart_disease : List String := []
  liver_disease : List String := []
  mental_health : List String := []
deriving DecidableEq, Repr

/-- The `health_data` input of `engineer_features`; an absent category and an
empty category both behave as `[]` (`health_data.get(cat, [])`). -/
structure HealthData where
  lab_data : List LabRecord := []
  lifestyle_data : List LifestyleRecord := []
  mental_health_data : List MentalRecord := []
  family_history : Option FamilyHistory := none
deriving DecidableEq, Repr

/-- `_get_default_lab_features`. -/
def default_lab_features : List (String × ℚ) :=
  [("glucose_latest", 0), ("hba1c_latest", 0), ("cholesterol_latest", 0),
   ("hdl_latest", 0), ("ldl_latest", 0), ("triglycerides_latest", 0),
   ("bp_systolic_latest", 0), ("bp_diastolic_latest", 0), ("heart_rate_latest", 0),
   ("alt_latest", 0), ("ast_latest", 0), ("creatinine_latest", 0), ("bun_latest", 0),
   ("glucose_trend", 0), ("hba1c_trend", 0), ("bp_systolic_trend", 0),
   ("cholesterol_trend", 0), ("glucose_variability", 0), ("bp_variability", 0),
   ("cholesterol_hdl_ratio", 0), ("pulse_pressure", 0),
   ("prediabetes_flag", 0), ("prehypertension_flag", 0)]

/-- `_get_default_lifestyle_features`. -/
def default_lifestyle_features : List (String × ℚ) :=
  [("avg_sleep_hours", 7), ("sleep_consistency", 1/2), ("poor_sleep_days", 0),
   ("avg_exercise_minutes", 0), ("exercise_frequency", 0), ("avg_steps", 5000),
   ("avg_water_intake", 2000), ("dehydration_risk", 0),
   ("avg_alcohol_units", 0), ("smoking", 0), ("diet_quality_score", 5/2),
   ("meal_regularity", 4/5), ("sedentary_lifestyle", 1)]

/-- `_get_default_mental_health_features`. -/
def default_mental_health_features : List (String × ℚ) :=
  [("avg_stress_level", 5), ("avg_anxiety_level", 3), ("high_stress_frequency", 0),
   ("avg_mood_score", 3), ("low_mood_frequency", 0),
   ("social_interaction_score", 2), ("work_life_balance_score", 5/2),
   ("chronic_stress_flag", 0), ("depression_risk_flag", 0)]

/-- `_get_default_family_history_features`. -/
def default_family_history_features : List (String × ℚ) :=
  [("family_diabetes", 0), ("family_hypertension", 0), ("family_heart_disease", 0),
   ("family_liver_disease", 0), ("family_mental_health", 0),
   ("has_family_diabetes", 0), ("has_family_hypertension", 0),
   ("has_family_heart_disease", 0), ("has_family_liver_disease", 0),
   ("has_family_mental_health", 0), ("genetic_risk_score", 0)]

/-- `_extract_lab_features`.  `sq` abstracts the square root used by pandas
`Series.std`; a column is "present" (`'col' in df`) when some record has it. -/
def extract_lab_features (sq : ℚ → ℚ) (lab_data : List LabRecord) : List (String × ℚ) :=
  match lab_data with
  | [] => default_lab_features
  | latest :: _ =>
    let glucose_latest := latest.glucose.getD 0
    let hba1c_latest := latest.hba1c.getD 0
    let cholesterol_latest := latest.cholesterol.getD 0
    let hdl_latest := latest.hdl.getD 0
    let ldl_latest := latest.ldl.getD 0
    let triglycerides_latest := latest.triglycerides.getD 0
    let bp_systolic_latest := latest.blood_pressure_systolic.getD 0
    let bp_diastolic_latest := latest.blood_pressure_diastolic.getD 0
    let heart_rate_latest := latest.heart_rate.getD 0
    let liver := latest.liver_enzymes
    let alt_latest := (liver.map (fun e => e.alt.getD 0)).getD 0
    let ast_latest := (liver.map (fun e => e.ast.getD 0)).getD 0
    let kidney := latest.kidney_function
    let creatinine_latest := (kidney.map (fun e => e.creatinine.getD 0)).getD 0
    let bun_latest := (kidney.map (fun e => e.bun.getD 0)).getD 0
    let trendFeatures : List (String × ℚ) :=
      if 1 < lab_data.length then
        [("glucose_trend", calculate_trend (lab_data.map (fun r => r.glucose))),
         ("hba1c_trend", calculate_trend (lab_data.map (fun r => r.hba1c))),
         ("bp_systolic_trend", calculate_trend (lab_data.map (fun r => r.blood_pressure_systolic))),
         ("cholesterol_trend", calculate_trend (lab_data.map (fun r => r.cholesterol))),
         ("glucose_variability",
           if lab_data.any (fun r => r.glucose.isSome) then
             sq (sampleVar (lab_data.filterMap (fun r => r.glucose))) else 0),
         ("bp_variability",
           if lab_data.any (fun r => r.blood_pressure_systolic.isSome) then
             sq (sampleVar (lab_data.filterMap (fun r => r.blood_pressure_systolic))) else 0)]
      else
        [("glucose_trend", 0), ("hba1c_trend", 0), ("bp_systolic_trend", 0),
         ("cholesterol_trend", 0), ("glucose_variability", 0), ("bp_variability", 0)]
    [("glucose_latest", glucose_latest), ("hba1c_latest", hba1c_latest),
     ("cholesterol_latest", cholesterol_latest), ("hdl_latest", hdl_latest),
     ("ldl_latest", ldl_latest), ("triglycerides_latest", triglycerides_latest),
     ("bp_systolic_latest", bp_systolic_latest), ("bp_diastolic_latest", bp_diastolic_latest),
     ("heart_rate_latest", heart_rate_latest),
     ("alt_latest", alt_latest), ("ast_latest", ast_latest),
     ("creatinine_latest", creatinine_latest), ("bun_latest", bun_latest)]
    ++ trendFeatures ++
    [("cholesterol_hdl_ratio", if 0 < hdl_latest then cholesterol_latest / hdl_latest else 0),
     ("pulse_pressure", bp_systolic_latest - bp_diastolic_latest),
     ("prediabetes_flag", if 100 ≤ glucose_latest ∧ glucose_latest ≤ 125 then 1 else 0),
     ("prehypertension_flag", if 120 ≤ bp_systolic_latest ∧ bp_systolic_latest ≤ 139 then 1 else 0)]

/-- `_extract_lifestyle_features`. Aggregations skip missing entries the way
pandas does (means over the non-missing values, comparisons false on NaN);
each per-column guard `'col' in df` is `lifestyle_data.any (… .isSome)`.
The extractor is fallible: when the `meals` column exists (some record has
it) but another record lacks it, the row-wise `x.get('meals', {})` returns
NaN (the label is present, so `Series.get` does not fall back to `{}`) and
`NaN.get('breakfast', False)` raises AttributeError — modelled as
`.error ()`, which propagates to `engineer_features`. -/
def extract_lifestyle_features (sq : ℚ → ℚ) (lifestyle_data : List LifestyleRecord) :
    Except Unit (List (String × ℚ)) :=
  match lifestyle_data with
  | [] => .ok default_lifestyle_features
  | _ :: _ =>
    let sleepVals := lifestyle_data.filterMap (fun r => r.sleep_hours)
    let avg_sleep_hours :=
      if lifestyle_data.any (fun r => r.sleep_hours.isSome) then qmean sleepVals else 7
    let sleep_consistency :=
      if lifestyle_data.any (fun r => r.sleep_hours.isSome) ∧ 0 < qmean sleepVals then
        1 - sq (sampleVar sleepVals) / qmean sleepVals
      else 1/2
    let poor_sleep_days :=
      if lifestyle_data.any (fun r => r.sleep_quality.isSome) then
        ((lifestyle_data.filter (fun r => r.sleep_quality = some "poor")).length : ℚ)
      else 0
    let exerciseVals := lifestyle_data.filterMap (fun r => r.exercise_minutes)
    let avg_exercise_minutes :=
      if lifestyle_data.any (fun r => r.exercise_minutes.isSome) then qmean exerciseVals else 0
    let exercise_frequency :=
      if lifestyle_data.any (fun r => r.exercise_minutes.isSome) then
        ((exerciseVals.filter (fun v => decide (0 < v))).length : ℚ) / (lifestyle_data.length : ℚ)
      else 0
    let avg_steps :=
      if lifestyle_data.any (fun r => r.steps.isSome) then
        qmean (lifestyle_data.filterMap (fun r => r.steps))
      else 0
    let avg_water_intake :=
      if lifestyle_data.any (fun r => r.water_intake_ml.isSome) then
        qmean (lifestyle_data.filterMap (fun r => r.water_intake_ml))
      else 2000
    let avg_alcohol_units :=
      if lifestyle_data.any (fun r => r.alcohol_units.isSome) then
        qmean (lifestyle_data.filterMap (fun r => r.alcohol_units))
      else 0
    let smoking :=
      if lifestyle_data.any (fun r => r.smoking.isSome) ∧
          lifestyle_data.any (fun r => r.smoking = some true) then (1 : ℚ) else 0
    let dietMap : String → Option ℚ := fun s =>
      if s = "poor" then some 1 else if s = "fair" then some 2
      else if s = "balanced" then some 3 else if s = "excellent" then some 4 else none
    let diet_quality_score :=
      if lifestyle_data.any (fun r => r.diet_quality.isSome) then
        qmean (lifestyle_data.filterMap (fun r => r.diet_quality.bind dietMap))
      else 5/2
    let mealCount : Meals → ℚ := fun m =>
      (if m.breakfast then 1 else 0) + (if m.lunch then 1 else 0) +
        (if m.dinner then 1 else 0)
    let meal_regularityE : Except Unit ℚ :=
      if lifestyle_data.any (fun r => r.meals.isSome) then
        if lifestyle_data.any (fun r => r.meals.isNone) then
          .error ()
        else
          .ok (qmean ((lifestyle_data.filterMap (fun r => r.meals)).map
            (fun m => mealCount m / 3)))
      else .ok (4/5)
    match meal_regularityE with
    | .error e => .error e
    | .ok meal_regularity =>
      .ok
        [("avg_sleep_hours", avg_sleep_hours), ("sleep_consistency", sleep_consistency),
         ("poor_sleep_days", poor_sleep_days),
         ("avg_exercise_minutes", avg_exercise_minutes),
         ("exercise_frequency", exercise_frequency),
         ("avg_steps", avg_steps),
         ("avg_water_intake", avg_water_intake),
         ("dehydration_risk", if avg_water_intake < 1500 then 1 else 0),
         ("avg_alcohol_units", avg_alcohol_units), ("smoking", smoking),
         ("diet_quality_score", diet_quality_score),
         ("meal_regularity", meal_regularity),
         ("sedentary_lifestyle",
           if avg_steps < 5000 ∧ avg_exercise_minutes < 20 then 1 else 0)]

/-- `_extract_mental_health_features`. -/
def extract_mental_health_features (mental_health_data : List MentalRecord) :
    List (String × ℚ) :=
  match mental_health_data with
  | [] => default_mental_health_features
  | _ :: _ =>
    let stressVals := mental_health_data.filterMap (fun r => r.stress_level)
    let avg_stress_level :=
      if mental_health_data.any (fun r => r.stress_level.isSome) then qmean stressVals else 5
    let avg_anxiety_level :=
      if mental_health_data.any (fun r => r.anxiety_level.isSome) then
        qmean (mental_health_data.filterMap (fun r => r.anxiety_level))
      else 3
    let high_stress_frequency :=
      if mental_health_data.any (fun r => r.stress_level.isSome) then
        ((stressVals.filter (fun v => decide (7 ≤ v))).length : ℚ) /
          (mental_health_data.length : ℚ)
      else 0
    let moodMap : String → Option ℚ := fun s =>
      if s = "depressed" then some 1 else if s = "low" then some 2
      else if s = "neutral" then some 3 else if s = "good" then some 4
      else if s = "excellent" then some 5 else none
    let avg_mood_score :=
      if mental_health_data.any (fun r => r.mood.isSome) then
        qmean (mental_health_data.filterMap (fun r => r.mood.bind moodMap))
      else 3
    let low_mood_frequency :=
      if mental_health_data.any (fun r => r.mood.isSome) then
        ((mental_health_data.filter
            (fun r => r.mood = some "depressed" ∨ r.mood = some "low")).length : ℚ) /
          (mental_health_data.length : ℚ)
      else 0
    let socialMap : String → Option ℚ := fun s =>
      if s = "low" then some 1 else if s = "moderate" then some 2
      else if s = "high" then some 3 else none
    let social_interaction_score :=
      if mental_health_data.any (fun r => r.social_interaction.isSome) then
        qmean (mental_health_data.filterMap (fun r => r.social_interaction.bind socialMap))
      else 2
    let balanceMap : String → Option ℚ := fun s =>
      if s = "poor" then some 1 else if s = "fair" then some 2
      else if s = "good" then some 3 else if s = "excellent" then some 4 else none
    let work_life_balance_score :=
      if mental_health_data.any (fun r => r.work_life_balance.isSome) then
        qmean (mental_health_data.filterMap (fun r => r.work_life_balance.bind balanceMap))
      else 5/2
    [("avg_stress_level", avg_stress_level), ("avg_anxiety_level", avg_anxiety_level),
     ("high_stress_frequency", high_stress_frequency),
     ("avg_mood_score", avg_mood_score), ("low_mood_frequency", low_mood_frequency),
     ("social_interaction_score", social_interaction_score),
     ("work_life_balance_score", work_life_balance_score),
     ("chronic_stress_flag", if 7 ≤ avg_stress_level then 1 else 0),
     ("depression_risk_flag", if 1/2 < low_mood_frequency then 1 else 0)]

/-- `_extract_family_history_features`; `none` is the falsy (absent/empty)
dict, which takes the default branch. -/
def extract_family_history_features (family_history : Option FamilyHistory) :
    List (String × ℚ) :=
  match family_history with
  | none => default_family_history_features
  | some fh =>
    let family_diabetes : ℚ := fh.diabetes.length
    let family_hypertension : ℚ := fh.hypertension.length
    let family_heart_disease : ℚ := fh.heart_disease.length
    let family_liver_disease : ℚ := fh.liver_disease.length
    let family_mental_health : ℚ := fh.mental_health.length
    [("family_diabetes", family_diabetes), ("family_hypertension", family_hypertension),
     ("family_heart_disease", family_heart_disease),
     ("family_liver_disease", family_liver_disease),
     ("family_mental_health", family_mental_health),
     ("has_family_diabetes", if 0 < family_diabetes then 1 else 0),
     ("has_family_hypertension", if 0 < family_hypertension then 1 else 0),
     ("has_family_heart_disease", if 0 < family_heart_disease then 1 else 0),
     ("has_family_liver_disease", if 0 < family_liver_disease then 1 else 0),
     ("has_family_mental_health", if 0 < family_mental_health then 1 else 0),
     ("genetic_risk_score",
       family_diabetes * 2 + family_hypertension * (3/2) + family_heart_disease * 2 +
         family_liver_disease * (3/2) + family_mental_health * 1)]

/-- `HealthFeatureEngineer.engineer_features`: the four per-category feature
dicts merged in order (their key sets are pairwise disjoint).  The whole
body runs inside `try`/`except`: when the lifestyle extractor raises (the
mixed-`meals` AttributeError), the handler returns an empty DataFrame,
modelled as the empty feature dict `[]`. -/
def engineer_features (sq : ℚ → ℚ) (health_data : HealthData) : List (String × ℚ) :=
  match extract_lifestyle_features sq health_data.lifestyle_data with
  | .error _ => []
  | .ok lifestyle_features =>
    extract_lab_features sq health_data.lab_data
    ++ lifestyle_features
    ++ extract_mental_health_features health_data.mental_health_data
    ++ extract_family_history_features health_data.family_history

/-- Keys of the lab sub-vector, in emission order. -/
def labSchema : List String := default_lab_features.map Prod.fst

/-- Keys of the lifestyle sub-vector, in emission order. -/
def lifestyleSchema : List String := default_lifestyle_features.map Prod.fst

/-- Keys of the mental-health sub-vector, in emission order. -/
def mentalSchema : List String := default_mental_health_features.map Prod.fst

/-- Keys of the family-history sub-vector, in emission order. -/
def familySchema : List String := default_family_history_features.map Prod.fst

/-- The full fixed feature schema of `engineer_features`. -/
def featureSchema : List String := labSchema ++ lifestyleSchema ++ mentalSchema ++ familySchema

/-- Restriction of a feature dict to a set of keys (order preserved). -/
def restrict (features : List (String × ℚ)) (keys : List String) : List (String × ℚ) :=
  features.filter (fun p => decide (p.1 ∈ keys))

theorem extract_lab_keys (sq : ℚ → ℚ) (l : List LabRecord) :
    (extract_lab_features sq l).map Prod.fst = labSchema := by
  cases l with
  | nil => rfl
  | cons r t =>
    simp only [extract_lab_features, List.map_append]
    split <;> rfl

theorem extract_lifestyle_keys (sq : ℚ → ℚ) (l : List LifestyleRecord)
    (fs : List (String × ℚ)) (h : extract_lifestyle_features sq l = .ok fs) :
    fs.map Prod.fst = lifestyleSchema := by
  cases l with
  | nil =>
    injection h with h
    subst h
    rfl
  | cons r t =>
    unfold extract_lifestyle_features at h
    dsimp only at h
    split at h
    · exact absurd h (by simp)
    · injection h with h
      subst h
      rfl

theorem extract_mental_keys (l : List MentalRecord) :
    (extract_mental_health_features l).map Prod.fst = mentalSchema := by
  cases l with
  | nil => rfl
  | cons r t => rfl

theorem extract_family_keys (fh : Option FamilyHistory) :
    (extract_family_history_features fh).map Prod.fst = familySchema := by
  cases fh with
  | none => rfl
  | some f => rfl

theorem mem_fst_of_keys {fs : List (String × ℚ)} {ks : List String}
    (h : fs.map Prod.fst = ks) : ∀ p ∈ fs, p.1 ∈ ks := by
  intro p hp
  rw [← h]
  exact List.mem_map_of_mem Prod.fst hp

theorem filter_keys_all {fs : List (String × ℚ)} {ks : List String}
    (h : ∀ p ∈ fs, p.1 ∈ ks) : fs.filter (fun p => decide (p.1 ∈ ks)) = fs := by
  rw [List.filter_eq_self]
  intro a ha
  exact decide_eq_true (h a ha)

theorem filter_keys_none {fs : List (String × ℚ)} {ks : List String}
    (h : ∀ p ∈ fs, p.1 ∉ ks) : fs.filter (fun p => decide (p.1 ∈ ks)) = [] := by
  rw [List.filter_eq_nil_iff]
  intro a ha
  simpa using h a ha

theorem schemas_disjoint :
    (∀ k ∈ labSchema, k ∉ lifestyleSchema ∧ k ∉ mentalSchema ∧ k ∉ familySchema) ∧
    (∀ k ∈ lifestyleSchema, k ∉ labSchema ∧ k ∉ mentalSchema ∧ k ∉ familySchema) ∧
    (∀ k ∈ mentalSchema, k ∉ labSchema ∧ k ∉ lifestyleSchema ∧ k ∉ familySchema) ∧
    (∀ k ∈ familySchema, k ∉ labSchema ∧ k ∉ lifestyleSchema ∧ k ∉ mentalSchema) := by
  decide

/-- The C4 failing input: a lifestyle list mixing one record with `meals`
and one without (the other categories are irrelevant and left empty). -/
def c4_failing : HealthData :=
  { lifestyle_data := [{ meals := some {} }, {}] }

theorem engineer_features_of_ok (sq : ℚ → ℚ) (h : HealthData)
    (fs : List (String × ℚ))
    (hfs : extract_lifestyle_features sq h.lifestyle_data = .ok fs) :
    engineer_features sq h =
      extract_lab_features sq h.lab_data ++ fs
      ++ extract_mental_health_features h.mental_health_data
      ++ extract_family_history_features h.family_history := by
  unfold engineer_features
  rw [hfs]

/-- C4 (code bug): on a lifestyle list mixing records with and without
`meals`, the extractor raises AttributeError (`Series.get` returns NaN for
a present label, and `NaN.get` has no such attribute), `engineer_features`
catches it and returns the empty DataFrame — no schema keys at all — while
the claim, the spec's never-fails contract and the code's own attempted
`.get('meals', {})` defaulting all require the full fixed schema.  Whenever
the lifestyle extraction does succeed, the output carries exactly the fixed
schema, and each zero-record category restricts to its documented default
sub-vector. -/
theorem engineer_features_c4 (sq : ℚ → ℚ) (h : HealthData) :
    engineer_features sq c4_failing = []
    ∧ featureSchema ≠ []
    ∧ (∀ fs, extract_lifestyle_features sq h.lifestyle_data = .ok fs →
        (engineer_features sq h).map Prod.fst = featureSchema
        ∧ (h.lab_data = [] →
            restrict (engineer_features sq h) labSchema = default_lab_features)
        ∧ (h.lifestyle_data = [] →
            restrict (engineer_features sq h) lifestyleSchema = default_lifestyle_features)
        ∧ (h.mental_health_data = [] →
            restrict (engineer_features sq h) mentalSchema = default_mental_health_features)
        ∧ (h.family_history = none →
            restrict (engineer_features sq h) familySchema
              = default_family_history_features)) := by
  refine ⟨rfl, by decide, ?_⟩
  intro fs hfs
  have hlab := extract_lab_keys sq h.lab_data
  have hlife := extract_lifestyle_keys sq h.lifestyle_data fs hfs
  have hment := extract_mental_keys h.mental_health_data
  have hfam := extract_family_keys h.family_history
  have hd := schemas_disjoint
  have heng := engineer_features_of_ok sq h fs hfs
  refine ⟨?_, ?_, ?_, ?_, ?_⟩
  · rw [heng]
    simp [featureSchema, hlab, hlife, hment, hfam]
  · intro h0
    rw [heng]
    unfold restrict
    rw [List.filter_append, List.filter_append, List.filter_append]
    rw [filter_keys_all (mem_fst_of_keys hlab),
        filter_keys_none (fun p hp => (hd.2.1 p.1 (mem_fst_of_keys hlife p hp)).1),
        filter_keys_none (fun p hp => (hd.2.2.1 p.1 (mem_fst_of_keys hment p hp)).1),
        filter_keys_none (fun p hp => (hd.2.2.2 p.1 (mem_fst_of_keys hfam p hp)).1)]
    rw [h0]
    rfl
  · intro h0
    rw [h0] at hfs
    have hfs' : (Except.ok default_lifestyle_features : Except Unit (List (String × ℚ)))
        = .ok fs := hfs
    injection hfs' with hdef
    rw [heng]
    unfold restrict
    rw [List.filter_append, List.filter_append, List.filter_append]
    rw [filter_keys_none (fun p hp => (hd.1 p.1 (mem_fst_of_keys hlab p hp)).1),
        filter_keys_all (mem_fst_of_keys hlife),
        filter_keys_none (fun p hp => (hd.2.2.1 p.1 (mem_fst_of_keys hment p hp)).2.1),
        filter_keys_none (fun p hp => (hd.2.2.2 p.1 (mem_fst_of_keys hfam p hp)).2.1)]
    rw [← hdef]
    rfl
  · intro h0
    rw [heng]
    unfold restrict
    rw [List.filter_append, List.filter_append, List.filter_append]
    rw [filter_keys_none (fun p hp => (hd.1 p.1 (mem_fst_of_keys hlab p hp)).2.1),
        filter_keys_none (fun p hp => (hd.2.1 p.1 (mem_fst_of_keys hlife p hp)).2.1),
        filter_keys_all (mem_fst_of_keys hment),
        filter_keys_none (fun p hp => (hd.2.2.2 p.1 (mem_fst_of_keys hfam p hp)).2.2)]
    rw [h0]
    rfl
  · intro h0
    rw [heng]
    unfold restrict
    rw [List.filter_append, List.filter_append, List.filter_append]
    rw [filter_keys_none (fun p hp => (hd.1 p.1 (mem_fst_of_keys hlab p hp)).2.2),
        filter_keys_none (fun p hp => (hd.2.1 p.1 (mem_fst_of_keys hlife p hp)).2.2),
        filter_keys_none (fun p hp => (hd.2.2.1 p.1 (mem_fst_of_keys hment p hp)).2.2),
        filter_keys_all (mem_fst_of_keys hfam)]
    rw [h0]
    rfl

theorem engineer_features_c4_witness :
    extract_lifestyle_features (fun _ => (0 : ℚ)) ([] : List LifestyleRecord)
        = .ok default_lifestyle_features
    ∧ (engineer_features (fun _ => 0) {}).map Prod.fst = featureSchema
    ∧ restrict (engineer_features (fun _ => 0) {}) labSchema = default_lab_features
    ∧ restrict (engineer_features (fun _ => 0) {}) lifestyleSchema = default_lifestyle_features
    ∧ restrict (engineer_features (fun _ => 0) {}) mentalSchema = default_mental_health_features
    ∧ restrict (engineer_features (fun _ => 0) {}) familySchema = default_family_history_features :=
  ⟨rfl,
   ((engineer_features_c4 (fun _ => 0) {}).2.2 default_lifestyle_features rfl).1,
   ((engineer_features_c4 (fun _ => 0) {}).2.2 default_lifestyle_features rfl).2.1 rfl,
   ((engineer_features_c4 (fun _ => 0) {}).2.2 default_lifestyle_features rfl).2.2.1 rfl,
   ((engineer_features_c4 (fun _ => 0) {}).2.2 default_lifestyle_features rfl).2.2.2.1 rfl,
   ((engineer_features_c4 (fun _ => 0) {}).2.2 default_lifestyle_features rfl).2.2.2.2 rfl⟩

/-- Lookup with default: `features.get(key, d)` / guarded column access. -/
def fgetD (features : List (String × ℚ)) (key : String) (d : ℚ) : ℚ :=
  (features.lookup key).getD d

/-- Lookup with default 0, the scoring engine's `features.get(key, 0)`. -/
def fget (features : List (String × ℚ)) (key : String) : ℚ :=
  fgetD features key 0

/-- The predictor's disease list (`MultiDiseaseRiskModel.disease_types`). -/
def diseaseTypes : List String :=
  ["diabetes", "hypertension", "liver_disease", "cardiac_risk", "mental_health"]

/-- The diabetes branch of `_rule_based_prediction` before the sedentary
step: clinical glucose/HbA1c bands plus the family-history increment. -/
def diabetes_pre_sedentary (features : List (String × ℚ)) : ℚ :=
  let glucose := fgetD features ("glucose_latest") 0
  let hba1c := fgetD features ("hba1c_latest") 0
  let base : ℚ :=
    if 126 ≤ glucose ∨ (6.5 : ℚ) ≤ hba1c then 0.8
    else if 100 ≤ glucose ∨ (5.7 : ℚ) ≤ hba1c then 0.5
    else 0.2
  if fgetD features ("has_family_diabetes") 0 = 1 then min (base + 0.15) 1 else base

/-- The body of `MultiDiseaseRiskModel._rule_based_prediction` (inside its
`try`): deterministic clinical-threshold scoring per disease. -/
def rule_based_body (features : List (String × ℚ)) (disease : String) : ℚ :=
  if disease = "diabetes" then
    let pre := diabetes_pre_sedentary features
    if fgetD features ("sedentary_lifestyle") 0 = 1 then min (pre + 0.1) 1 else pre
  else if disease = "hypertension" then
    let bp_sys := fgetD features ("bp_systolic_latest") 0
    let bp_dia := fgetD features ("bp_diastolic_latest") 0
    let base : ℚ :=
      if 140 ≤ bp_sys ∨ 90 ≤ bp_dia then 0.8
      else if 130 ≤ bp_sys ∨ 85 ≤ bp_dia then 0.5
      else 0.2
    if fgetD features ("has_family_hypertension") 0 = 1 then min (base + 0.15) 1 else base
  else if disease = "liver_disease" then
    let alt := fgetD features ("alt_latest") 0
    let ast := fgetD features ("ast_latest") 0
    let base : ℚ :=
      if 40 < alt ∨ 40 < ast then 0.6
      else if 30 < alt ∨ 30 < ast then 0.4
      else 0.15
    let alcohol := fgetD features ("avg_alcohol_units") 0
    if 2 < alcohol then min (base + 0.2) 1 else base
  else if disease = "cardiac_risk" then
    let cholesterol := fgetD features ("cholesterol_latest") 0
    let bp_sys := fgetD features ("bp_systolic_latest") 0
    let smoking := fgetD features ("smoking") 0
    let risk_factors : ℚ :=
      (if 240 < cholesterol then 1 else 0) + (if 140 < bp_sys then 1 else 0) +
      (if smoking = 1 then 1 else 0) +
      (if fgetD features ("has_family_heart_disease") 0 = 1 then 1 else 0)
    min (0.2 + risk_factors * 0.15) 0.9
  else if disease = "mental_health" then
    let stress := fgetD features ("avg_stress_level") 5
    let mood := fgetD features ("avg_mood_score") 3
    let base : ℚ :=
      if 8 ≤ stress ∨ mood ≤ 2 then 0.7
      else if 6 ≤ stress ∨ mood ≤ (2.5 : ℚ) then 0.5
      else 0.25
    let sleep_hours := fgetD features ("avg_sleep_hours") 7
    if sleep_hours < 6 then min (base + 0.15) 1 else base
  else 0

/-- The `except` clause of `_rule_based_prediction`: a raised body yields the
neutral 0.5 and the exception never propagates. -/
def ruleBasedSafe (body : Except Unit ℚ) : ℚ :=
  match body with
  | .ok v => v
  | .error _ => 0.5

/-- `_rule_based_prediction` as shipped: its body is total, so the `except`
branch is never taken on well-typed input. -/
def rule_based_prediction (features : List (String × ℚ)) (disease : String) : ℚ :=
  ruleBasedSafe (.ok (rule_based_body features disease))

/-- The per-disease loop of `predict_risk_scores` over a disease list:
`strat d` is the trained-classifier strategy for `d` (`.error ()` both when
the model carries no fitted marker and when scaling/prediction raises), and
`rb d` the body of the rule-based fallback (which may itself raise). -/
def predictOver (ds : List String) (strat rb : String → Except Unit ℚ) :
    List (String × ℚ) :=
  ds.map fun d =>
    (d, match strat d with
        | .ok v => v
        | .error _ => ruleBasedSafe (rb d))

/-- `MultiDiseaseRiskModel.predict_risk_scores`, abstracted over the two
strategies' outcomes. -/
def predict_risk_scores (strat rb : String → Except Unit ℚ) : List (String × ℚ) :=
  predictOver diseaseTypes strat rb

theorem predictOver_error_update (ds : List String) (strat strat' rb : String → Except Unit ℚ)
    (D : String) (hD : strat' D = .error ())
    (hother : ∀ d, d ≠ D → strat' d = strat d) :
    predictOver ds strat' rb =
      (predictOver ds strat rb).map
        (fun p => if p.1 = D then (p.1, ruleBasedSafe (rb D)) else p) := by
  induction ds with
  | nil => rfl
  | cons d t ih =>
    simp only [predictOver, List.map_cons] at *
    rw [ih]
    by_cases hdD : d = D
    · subst hdD
      simp [hD]
    · simp [hother d hdD, hdD]

theorem predictOver_mem_value (ds : List String) (strat rb : String → Except Unit ℚ)
    (D : String) (q : ℚ) (hmem : (D, q) ∈ predictOver ds strat rb) :
    q = (match strat D with
         | .ok v => v
         | .error _ => ruleBasedSafe (rb D)) := by
  induction ds with
  | nil => simp [predictOver] at hmem
  | cons d t ih =>
    simp only [predictOver, List.map_cons, List.mem_cons] at hmem
    rcases hmem with h | h
    · injection h with h1 h2
      subst h1
      exact h2
    · exact ih h

/-- C2: if the trained strategy raises for disease `D`, `predict_risk_scores`
still returns a value for `D` — the rule-based fallback — and every other
disease's value is unchanged from the run without the exception; and if the
rule-based body itself raises for `D`, the value returned for `D` is 0.5
(the function stays total: no exception propagates). -/
theorem predict_fallback_isolation_c2 (strat strat' rb : String → Except Unit ℚ)
    (D : String) (hD : strat' D = .error ())
    (hother : ∀ d, d ≠ D → strat' d = strat d) :
    predict_risk_scores strat' rb =
      (predict_risk_scores strat rb).map
        (fun p => if p.1 = D then (p.1, ruleBasedSafe (rb D)) else p)
    ∧ (rb D = .error () →
        ∀ q : ℚ, (D, q) ∈ predict_risk_scores strat' rb → q = 0.5) := by
  constructor
  · exact predictOver_error_update diseaseTypes strat strat' rb D hD hother
  · intro hrb q hq
    have := predictOver_mem_value diseaseTypes strat' rb D q hq
    rw [this, hD, hrb]
    rfl

theorem predict_fallback_isolation_c2_witness :
    predict_risk_scores (fun d => if d = "diabetes" then .error () else .ok 1)
        (fun _ => .error ())
      = (predict_risk_scores (fun _ => .ok 1) (fun _ => .error ())).map
          (fun p => if p.1 = "diabetes" then (p.1, ruleBasedSafe (Except.error ())) else p)
    ∧ ((Except.error () : Except Unit ℚ) = .error () →
        ∀ q : ℚ, ("diabetes", q) ∈
            predict_risk_scores (fun d => if d = "diabetes" then .error () else .ok 1)
              (fun _ => .error ()) →
          q = 0.5) :=
  predict_fallback_isolation_c2 (fun _ => .ok 1)
    (fun d => if d = "diabetes" then .error () else .ok 1) (fun _ => .error ())
    ("diabetes") (by simp) (fun d hd => by simp [hd])

/-- C8: a feature vector with `glucose_latest = 150`, `hba1c_latest = 7.0`
and the family/sedentary modifiers at 0 gets rule-based diabetes
probability exactly 0.8. -/
theorem diabetes_rule_example_c8 (f : List (String × ℚ))
    (hg : fgetD f ("glucose_latest") 0 = 150)
    (hh : fgetD f ("hba1c_latest") 0 = 7)
    (hf : fgetD f ("has_family_diabetes") 0 = 0)
    (hs : fgetD f ("sedentary_lifestyle") 0 = 0) :
    rule_based_body f ("diabetes") = 0.8 := by
  simp only [rule_based_body, diabetes_pre_sedentary, hg, hh, hf, hs]
  norm_num

theorem diabetes_rule_example_c8_witness :
    (fgetD [(("glucose_latest" : String), (150 : ℚ)), ("hba1c_latest", 7)]
        ("glucose_latest") 0 = 150
      ∧ fgetD [(("glucose_latest" : String), (150 : ℚ)), ("hba1c_latest", 7)]
          ("hba1c_latest") 0 = 7
      ∧ fgetD [(("glucose_latest" : String), (150 : ℚ)), ("hba1c_latest", 7)]
          ("has_family_diabetes") 0 = 0
      ∧ fgetD [(("glucose_latest" : String), (150 : ℚ)), ("hba1c_latest", 7)]
          ("sedentary_lifestyle") 0 = 0)
    ∧ rule_based_body [(("glucose_latest" : String), (150 : ℚ)), ("hba1c_latest", 7)]
        ("diabetes") = 0.8 :=
  ⟨⟨rfl, rfl, rfl, rfl⟩, diabetes_rule_example_c8 _ rfl rfl rfl rfl⟩

/-- One per-disease assessment as stored in `report['risk_assessments']`. -/
structure Assessment where
  disease : String
  risk_score : ℚ
  risk_level : RiskLevel
  confidence : String
  contributing_factors : List String
  recommendations : List String
deriving DecidableEq, Repr

/-- One entry of `report['priority_actions']`. -/
structure PriorityAction where
  disease : String
  risk_score : ℚ
  action : String
  urgency : String
deriving DecidableEq, Repr

/-- `_calculate_confidence`: fraction of 5 key features that are non-zero,
bucketed at 0.5 and 0.8. -/
def calculate_confidence (features : List (String × ℚ)) : String :=
  let key_features := ["glucose_latest", "bp_systolic_latest", "avg_sleep_hours",
    "avg_exercise_minutes", "avg_stress_level"]
  let available := (key_features.filter (fun k => decide (0 < fget features k))).length
  let completeness : ℚ := (available : ℚ) / (key_features.length : ℚ)
  if 4/5 ≤ completeness then "high"
  else if 1/2 ≤ completeness then "medium"
  else "low"

/-- `_identify_risk_factors`: fixed ordered predicate battery per disease;
an empty result is replaced by the single canned sentence. -/
def identify_risk_factors (disease : String) (features : List (String × ℚ)) :
    List String :=
  let risk_factors : List String :=
    if disease = "diabetes" then
      (if 100 ≤ fget features ("glucose_latest") then ["Elevated glucose levels"] else [])
      ++ (if (5.7 : ℚ) ≤ fget features ("hba1c_latest") then ["Elevated HbA1c"] else [])
      ++ (if fget features ("has_family_diabetes") = 1 then ["Family history of diabetes"] else [])
      ++ (if fget features ("sedentary_lifestyle") = 1 then ["Sedentary lifestyle"] else [])
      ++ (if fget features ("diet_quality_score") < (2.5 : ℚ) then ["Poor diet quality"] else [])
    else if disease = "hypertension" then
      (if 130 ≤ fget features ("bp_systolic_latest") then ["Elevated blood pressure"] else [])
      ++ (if fget features ("has_family_hypertension") = 1 then ["Family history of hypertension"] else [])
      ++ (if 7 ≤ fget features ("avg_stress_level") then ["High stress levels"] else [])
      ++ (if 2 < fget features ("avg_alcohol_units") then ["Excessive alcohol consumption"] else [])
      ++ (if fget features ("smoking") = 1 then ["Smoking"] else [])
    else if disease = "liver_disease" then
      (if 30 < fget features ("alt_latest") ∨ 30 < fget features ("ast_latest") then
        ["Elevated liver enzymes"] else [])
      ++ (if 2 < fget features ("avg_alcohol_units") then ["Excessive alcohol consumption"] else [])
      ++ (if fget features ("diet_quality_score") < (2.5 : ℚ) then ["Poor diet"] else [])
    else if disease = "cardiac_risk" then
      (if 200 < fget features ("cholesterol_latest") then ["Elevated cholesterol"] else [])
      ++ (if 130 ≤ fget features ("bp_systolic_latest") then ["High blood pressure"] else [])
      ++ (if fget features ("smoking") = 1 then ["Smoking"] else [])
      ++ (if fget features ("has_family_heart_disease") = 1 then ["Family history of heart disease"] else [])
      ++ (if fget features ("exercise_frequency") < (0.3 : ℚ) then ["Insufficient exercise"] else [])
    else if disease = "mental_health" then
      (if 7 ≤ fget features ("avg_stress_level") then ["Chronic high stress"] else [])
      ++ (if fget features ("avg_mood_score") ≤ (2.5 : ℚ) then ["Low mood"] else [])
      ++ (if fget features ("avg_sleep_hours") < 6 then ["Sleep deprivation"] else [])
      ++ (if fget features ("social_interaction_score") ≤ 1 then ["Social isolation"] else [])
      ++ (if fget features ("work_life_balance_score") ≤ 2 then ["Poor work-life balance"] else [])
    else []
  if risk_factors = [] then ["No significant risk factors identified"] else risk_factors

/-- `_initialize_recommendations`: the fixed recommendation database. -/
def recommendations_db (disease : String) (level : RiskLevel) : List String :=
  if disease = "diabetes" then
    match level with
    | .low => ["Maintain healthy weight through balanced diet",
        "Exercise regularly (150 minutes per week)", "Monitor blood sugar annually"]
    | .medium => ["Consult with healthcare provider for glucose screening",
        "Adopt low-glycemic diet", "Increase physical activity",
        "Monitor blood sugar every 6 months"]
    | .high => ["Immediate consultation with endocrinologist",
        "Comprehensive glucose tolerance testing", "Create diabetes prevention plan",
        "Monitor blood sugar monthly"]
    | .very_high => ["Urgent medical evaluation required", "Immediate lifestyle intervention",
        "Consider medication consultation", "Weekly glucose monitoring"]
  else if disease = "hypertension" then
    match level with
    | .low => ["Maintain healthy blood pressure through diet",
        "Regular cardiovascular exercise", "Limit sodium intake"]
    | .medium => ["Monitor blood pressure weekly", "Reduce sodium to <2300mg/day",
        "Consult with healthcare provider", "Manage stress through relaxation techniques"]
    | .high => ["Immediate medical consultation", "Daily blood pressure monitoring",
        "Strict DASH diet adherence", "Medication evaluation"]
    | .very_high => ["Emergency medical evaluation", "Immediate blood pressure management",
        "Comprehensive cardiovascular assessment", "Multiple daily BP measurements"]
  else if disease = "liver_disease" then
    match level with
    | .low => ["Maintain liver health through balanced diet", "Limit alcohol consumption",
        "Annual liver function tests"]
    | .medium => ["Consult hepatologist for evaluation", "Reduce or eliminate alcohol",
        "Liver function tests every 6 months", "Consider hepatitis screening"]
    | .high => ["Immediate hepatology consultation", "Comprehensive liver assessment",
        "Abstain from alcohol", "Quarterly liver monitoring"]
    | .very_high => ["Urgent hepatology evaluation", "Complete abstinence from alcohol",
        "Imaging studies (ultrasound/MRI)", "Monthly liver function monitoring"]
  else if disease = "cardiac_risk" then
    match level with
    | .low => ["Maintain heart-healthy diet", "Regular aerobic exercise",
        "Annual cardiovascular check-up"]
    | .medium => ["Cardiology consultation", "Lipid profile every 6 months",
        "Increase cardiovascular exercise", "Consider cardiac calcium scoring"]
    | .high => ["Immediate cardiology evaluation", "Comprehensive cardiac workup",
        "Aggressive risk factor management", "Consider stress test"]
    | .very_high => ["Emergency cardiac assessment", "Immediate intervention planning",
        "Medication optimization", "Close cardiac monitoring"]
  else if disease = "mental_health" then
    match level with
    | .low => ["Practice stress management techniques", "Maintain social connections",
        "Ensure adequate sleep"]
    | .medium => ["Consider counseling or therapy", "Develop coping strategies",
        "Regular mental health check-ins", "Improve work-life balance"]
    | .high => ["Immediate mental health professional consultation",
        "Comprehensive psychological assessment", "Consider therapy or medication",
        "Build strong support network"]
    | .very_high => ["Urgent mental health intervention", "Immediate psychiatric evaluation",
        "Crisis support resources", "Intensive treatment consideration"]
  else []

/-- `_get_personalized_recommendations`. -/
def get_personalized_recommendations (disease : String)
    (features : List (String × ℚ)) : List String :=
  if disease = "diabetes" then
    (if fget features ("sedentary_lifestyle") = 1 then
      ["Increase physical activity to at least 150 minutes per week"] else [])
    ++ (if fget features ("diet_quality_score") < (2.5 : ℚ) then
      ["Consult a nutritionist for a diabetes-prevention diet plan"] else [])
  else if disease = "hypertension" then
    (if 7 ≤ fget features ("avg_stress_level") then
      ["Practice stress-reduction techniques like meditation or yoga"] else [])
    ++ (if 2 < fget features ("avg_alcohol_units") then
      ["Reduce alcohol consumption to recommended limits"] else [])
  else if disease = "mental_health" then
    (if fget features ("avg_sleep_hours") < 6 then
      ["Improve sleep hygiene and aim for 7-9 hours of sleep"] else [])
    ++ (if fget features ("social_interaction_score") ≤ 1 then
      ["Increase social connections and community engagement"] else [])
  else []

/-- `_get_recommendations`: canned list for the tier, then personalized
additions, truncated to the first 5 in insertion order. -/
def get_recommendations (disease : String) (risk_level : RiskLevel)
    (features : List (String × ℚ)) : List String :=
  (recommendations_db disease risk_level
    ++ get_personalized_recommendations disease features).take 5

/-- Python bankers' rounding at 2 decimal places (`round(x, 2)`), idealized
over exact rationals. -/
def round2dp (x : ℚ) : ℚ :=
  let y := x * 100
  let f : ℤ := ⌊y⌋
  let r := y - f
  (if r < 1/2 then (f : ℚ)
   else if 1/2 < r then (f : ℚ) + 1
   else if 2 ∣ f then (f : ℚ) else (f : ℚ) + 1) / 100

/-- The consult-provider action emitted for a high/very_high disease. -/
def consult_action (disease : String) (score : ℚ) : PriorityAction :=
  { disease := disease
    risk_score := score
    action := "Consult a healthcare provider for " ++ (disease.replace ("_") (" "))
      ++ " assessment"
    urgency := "high" }

/-- The monitor action emitted for a medium disease. -/
def monitor_action (disease : String) (score : ℚ) : PriorityAction :=
  { disease := disease
    risk_score := score
    action := "Monitor " ++ (disease.replace ("_") (" ")) ++ " risk factors"
    urgency := "medium" }

/-- `sorted(risk_assessments.items(), key=risk_score, reverse=True)`:
a stable sort by descending risk score (Python's `sorted` is stable, as is
`List.mergeSort`). -/
def sorted_risks (ras : List (String × Assessment)) : List (String × Assessment) :=
  ras.mergeSort (fun a b => decide (b.2.risk_score ≤ a.2.risk_score))

/-- Membership test for the high-priority tier. -/
def isHighPair (p : String × Assessment) : Bool :=
  decide (p.2.risk_level = RiskLevel.high ∨ p.2.risk_level = RiskLevel.very_high)

/-- The first loop of `_prioritize_actions`: every high/very_high disease,
in sorted order, with no cap. -/
def high_priority_actions (ras : List (String × Assessment)) : List PriorityAction :=
  ((sorted_risks ras).filter isHighPair).map (fun p => consult_action p.1 p.2.risk_score)

/-- One step of the second loop of `_prioritize_actions`: append a monitor
action for a medium disease while fewer than 5 actions are collected. -/
def medium_step (acc : List PriorityAction) (p : String × Assessment) : List PriorityAction :=
  if p.2.risk_level = RiskLevel.medium ∧ acc.length < 5 then
    acc ++ [monitor_action p.1 p.2.risk_score]
  else acc

/-- `RiskScoringEngine._prioritize_actions`. -/
def prioritize_actions (ras : List (String × Assessment)) : List PriorityAction :=
  (sorted_risks ras).foldl medium_step (high_priority_actions ras)

/-- Spec-side description of the medium tier: all medium diseases in sorted
order as monitor actions (the claim then truncates this list). -/
def medium_actions (ras : List (String × Assessment)) : List PriorityAction :=
  ((sorted_risks ras).filter (fun p => decide (p.2.risk_level = RiskLevel.medium))).map
    (fun p => monitor_action p.1 p.2.risk_score)

theorem foldl_medium_step (l : List (String × Assessment)) :
    ∀ acc : List PriorityAction,
      l.foldl medium_step acc =
        acc ++ ((l.filter (fun p => decide (p.2.risk_level = RiskLevel.medium))).map
          (fun p => monitor_action p.1 p.2.risk_score)).take (5 - acc.length) := by
  induction l with
  | nil => intro acc; simp
  | cons p t ih =>
    intro acc
    by_cases hm : p.2.risk_level = RiskLevel.medium
    · by_cases hlen : acc.length < 5
      · rw [List.foldl_cons]
        have hms : medium_step acc p = acc ++ [monitor_action p.1 p.2.risk_score] := by
          simp [medium_step, hm, hlen]
        rw [hms, ih]
        have h5 : 5 - acc.length = (5 - (acc.length + 1)) + 1 := by omega
        simp [hm, h5, List.take_succ_cons]
      · rw [List.foldl_cons]
        have hms : medium_step acc p = acc := by simp [medium_step, hlen]
        rw [hms, ih]
        have h5 : 5 - acc.length = 0 := by omega
        simp [hm, h5]
    · rw [List.foldl_cons]
      have hms : medium_step acc p = acc := by simp [medium_step, hm]
      rw [hms, ih]
      simp [hm]

theorem sorted_risks_pairwise (ras : List (String × Assessment)) :
    (sorted_risks ras).Pairwise (fun a b => b.2.risk_score ≤ a.2.risk_score) := by
  have h := @List.sorted_mergeSort (String × Assessment)
    (fun a b => decide (b.2.risk_score ≤ a.2.risk_score))
    (fun a b c hab hbc => by
      simp only [decide_eq_true_eq] at *
      exact le_trans hbc hab)
    (fun a b => by
      simp only [Bool.or_eq_true, decide_eq_true_eq]
      exact le_total _ _)
    ras
  exact h.imp (fun hx => by simpa using hx)

/-- The premise set of the spec's worked example:
A(score 80, high), B(score 60, medium), C(score 90, very_high). -/
def example_abc : List (String × Assessment) :=
  [("a", ⟨"a", 80, .high, "medium", [], []⟩),
   ("b", ⟨"b", 60, .medium, "medium", [], []⟩),
   ("c", ⟨"c", 90, .very_high, "medium", [], []⟩)]

/-- C5: `priority_actions` is the high/very_high diseases in descending
score order (consult actions, urgency high, uncapped) followed by the
medium diseases in descending score order (monitor actions, urgency
medium) truncated so the total stays below 5; each segment is sorted by
descending score, so a high/very_high disease always precedes every medium
one; and on the A/B/C example the order is exactly [C, A, B]. -/
theorem prioritize_actions_c5 (ras : List (String × Assessment)) :
    prioritize_actions ras
      = high_priority_actions ras
        ++ (medium_actions ras).take (5 - (high_priority_actions ras).length)
    ∧ (high_priority_actions ras).Pairwise (fun x y => y.risk_score ≤ x.risk_score)
    ∧ ((medium_actions ras).take (5 - (high_priority_actions ras).length)).Pairwise
        (fun x y => y.risk_score ≤ x.risk_score)
    ∧ (high_priority_actions ras).all (fun a => a.urgency == "high") = true
    ∧ (medium_actions ras).all (fun a => a.urgency == "medium") = true
    ∧ (prioritize_actions example_abc).map PriorityAction.disease = ["c", "a", "b"]
    ∧ (prioritize_actions example_abc).map PriorityAction.urgency
        = ["high", "high", "medium"] := by
  refine ⟨?_, ?_, ?_, ?_, ?_, ?_, ?_⟩
  · unfold prioritize_actions medium_actions
    rw [foldl_medium_step]
  · exact List.pairwise_map.mpr
      (((sorted_risks_pairwise ras).filter isHighPair).imp (fun hx => hx))
  · exact List.Pairwise.sublist (List.take_sublist _ _)
      (List.pairwise_map.mpr
        (((sorted_risks_pairwise ras).filter _).imp (fun hx => hx)))
  · rw [List.all_eq_true]
    intro a ha
    obtain ⟨p, hp, rfl⟩ := List.mem_map.mp ha
    rfl
  · rw [List.all_eq_true]
    intro a ha
    obtain ⟨p, hp, rfl⟩ := List.mem_map.mp ha
    rfl
  · norm_num [prioritize_actions, high_priority_actions, medium_actions, sorted_risks,
      List.mergeSort, example_abc, isHighPair, medium_step, consult_action, monitor_action,
      List.filter_cons, List.filter_nil, List.foldl_cons, List.foldl_nil]
    simp
  · norm_num [prioritize_actions, high_priority_actions, medium_actions, sorted_risks,
      List.mergeSort, example_abc, isHighPair, medium_step, consult_action, monitor_action,
      List.filter_cons, List.filter_nil, List.foldl_cons, List.foldl_nil]
    simp

/-- `_generate_detailed_recommendations` output buckets. -/
structure DetailedRecs where
  lifestyle : List String
  medical : List String
  monitoring : List String
  prevention : List String
deriving DecidableEq, Repr

/-- `_generate_detailed_recommendations`. -/
def generate_detailed_recommendations (risk_assessments : List (String × Assessment))
    (features : List (String × ℚ)) : DetailedRecs :=
  { lifestyle :=
      (if fget features ("sedentary_lifestyle") = 1 then
        ["Engage in regular physical activity (150 min/week)"] else [])
      ++ (if fget features ("avg_sleep_hours") < 7 then
        ["Improve sleep duration to 7-9 hours per night"] else [])
      ++ (if fget features ("diet_quality_score") < 3 then
        ["Adopt a balanced, nutrient-rich diet"] else [])
    medical :=
      (risk_assessments.filter isHighPair).map (fun p =>
        "Schedule consultation with healthcare provider for " ++ (p.1.replace ("_") (" ")))
    monitoring :=
      (if 100 ≤ fget features ("glucose_latest") then
        ["Monitor blood glucose levels monthly"] else [])
      ++ (if 130 ≤ fget features ("bp_systolic_latest") then
        ["Track blood pressure daily"] else [])
    prevention :=
      ["Maintain regular health check-ups",
       "Keep detailed health records and symptom diary"] }

/-- One entry of `report['key_risk_factors']`. -/
structure KeyFactor where
  factor : String
  severity : String
  modifiable : Bool
deriving DecidableEq, Repr

/-- `_identify_key_risk_factors`. -/
def identify_key_risk_factors (features : List (String × ℚ)) : List KeyFactor :=
  (if fget features ("has_family_diabetes") = 1 ∨ fget features ("has_family_hypertension") = 1
    then [KeyFactor.mk ("Genetic predisposition") ("high") false] else [])
  ++ (if fget features ("sedentary_lifestyle") = 1
    then [KeyFactor.mk ("Sedentary lifestyle") ("medium") true] else [])
  ++ (if fget features ("smoking") = 1
    then [KeyFactor.mk ("Smoking") ("very_high") true] else [])
  ++ (if 7 ≤ fget features ("avg_stress_level")
    then [KeyFactor.mk ("Chronic stress") ("high") true] else [])

/-- `_assess_data_completeness`: per category, the rounded percentage of a
fixed representative feature subset that is non-zero. -/
def assess_data_completeness (features : List (String × ℚ)) : List (String × ℚ) :=
  let pct : List String → ℚ := fun fl =>
    round2dp ((((fl.filter (fun k => decide (0 < fget features k))).length : ℚ)
      / (fl.length : ℚ)) * 100)
  [("lab_data", pct ["glucose_latest", "bp_systolic_latest", "cholesterol_latest"]),
   ("lifestyle_data", pct ["avg_sleep_hours", "avg_exercise_minutes", "avg_steps"]),
   ("mental_health", pct ["avg_stress_level", "avg_mood_score"]),
   ("family_history", pct ["has_family_diabetes", "has_family_hypertension"])]

/-- `_suggest_next_assessment`: `max()` over the per-disease percentage
scores raises on an empty collection, modelled as `.error ()`. -/
def suggest_next_assessment (risk_assessments : List (String × Assessment)) :
    Except Unit String :=
  match (risk_assessments.map (fun p => p.2.risk_score)).max? with
  | none => .error ()
  | some max_risk =>
    .ok (if 70 ≤ max_risk then "1 month" else if 50 ≤ max_risk then "3 months" else "6 months")

/-- The overall-score step of `generate_risk_report`:
`round((total_risk / len(risk_scores)) * 100, 2)` — a `ZeroDivisionError`
on an empty score dict, modelled as `.error ()`. -/
def overall_risk_score_step (risk_scores : List (String × ℚ)) : Except Unit ℚ :=
  if risk_scores.length = 0 then .error ()
  else .ok (round2dp (((risk_scores.map Prod.snd).sum / (risk_scores.length : ℚ)) * 100))

/-- The per-disease assessment built inside the loop of
`generate_risk_report`. -/
def mk_assessment (features : List (String × ℚ)) (disease : String) (score : ℚ) :
    Assessment :=
  { disease := disease
    risk_score := round2dp (score * 100)
    risk_level := get_risk_level score disease
    confidence := calculate_confidence features
    contributing_factors := identify_risk_factors disease features
    recommendations := get_recommendations disease (get_risk_level score disease) features }

/-- A report field value; the report itself is a key-ordered field list,
mirroring the Python dict (the failure marker `{}` is the empty list). -/
inductive FieldVal
  | str : String → FieldVal
  | num : ℚ → FieldVal
  | assessments : List (String × Assessment) → FieldVal
  | actions : List PriorityAction → FieldVal
  | recs : DetailedRecs → FieldVal
  | factors : List KeyFactor → FieldVal
  | completeness : List (String × ℚ) → FieldVal
deriving DecidableEq, Repr

/-- Minimal user context (`user_profile.get('uid'/'name', '')`). -/
structure UserProfile where
  uid : String := ""
  name : String := ""
deriving DecidableEq, Repr

/-- The `try` body of `generate_risk_report`; `now` stands for
`datetime.now().isoformat()`, which is outside the embedding. -/
def generate_report_body (now : String) (risk_scores : List (String × ℚ))
    (features : List (String × ℚ)) (user_profile : UserProfile) :
    Except Unit (List (String × FieldVal)) :=
  let risk_assessments := risk_scores.map (fun p => (p.1, mk_assessment features p.1 p.2))
  match overall_risk_score_step risk_scores with
  | .error e => .error e
  | .ok overall =>
    match suggest_next_assessment risk_assessments with
    | .error e => .error e
    | .ok next =>
      .ok [("user_id", .str user_profile.uid),
           ("user_name", .str user_profile.name),
           ("report_date", .str now),
           ("risk_assessments", .assessments risk_assessments),
           ("overall_risk_score", .num overall),
           ("priority_actions", .actions (prioritize_actions risk_assessments)),
           ("detailed_recommendations",
             .recs (generate_detailed_recommendations risk_assessments features)),
           ("key_risk_factors", .factors (identify_key_risk_factors features)),
           ("data_completeness", .completeness (assess_data_completeness features)),
           ("next_assessment_date", .str next)]

/-- `RiskScoringEngine.generate_risk_report`: the `except` handler discards
any partially built dict and returns the empty failure marker `{}`. -/
def generate_risk_report (now : String) (risk_scores : List (String × ℚ))
    (features : List (String × ℚ)) (user_profile : UserProfile) :
    List (String × FieldVal) :=
  match generate_report_body now risk_scores features user_profile with
  | .ok report => report
  | .error _ => []

/-- The fixed key set of a successfully generated report, in insertion
order. -/
def reportKeys : List String :=
  ["user_id", "user_name", "report_date", "risk_assessments", "overall_risk_score",
   "priority_actions", "detailed_recommendations", "key_risk_factors",
   "data_completeness", "next_assessment_date"]

/-- C3: `generate_risk_report` is all-or-nothing — for every input it either
returns the explicit failure marker (the empty dict, no report fields) or a
report carrying exactly the full report schema; no partially populated
report is ever returned. -/
theorem generate_report_all_or_nothing_c3 (now : String)
    (risk_scores features : List (String × ℚ)) (user_profile : UserProfile) :
    generate_risk_report now risk_scores features user_profile = []
    ∨ (generate_risk_report now risk_scores features user_profile).map Prod.fst
        = reportKeys := by
  unfold generate_risk_report generate_report_body
  rcases overall_risk_score_step risk_scores with e | overall
  · left
    rfl
  · rcases hnext : suggest_next_assessment
        (risk_scores.map (fun p => (p.1, mk_assessment features p.1 p.2))) with e | next
    · left
      simp [hnext]
    · right
      simp [hnext, reportKeys]

/-- C9: on an empty risk-score dict the overall-score division and the
next-review `max()` both fail, the exception handler is taken, and
`generate_risk_report` returns the failure marker, for every feature vector
and user context. -/
theorem generate_report_empty_scores_c9 (now : String)
    (features : List (String × ℚ)) (user_profile : UserProfile) :
    generate_risk_report now [] features user_profile = []
    ∧ overall_risk_score_step [] = .error ()
    ∧ suggest_next_assessment [] = .error () := by
  refine ⟨?_, rfl, rfl⟩
  rfl

/-- C6: on the newest-first lab series glucose 120, 110, 100 (i.e. glucose
rising over time from 100 to 120), `_calculate_trend` fits the slope against
the raw input order without reordering and returns −10, while the claim (and
the function's own docstring, "positive = increasing") requires the slope
after reordering oldest→newest, which is +10. -/
theorem lab_trend_newest_first_c6 :
    calculate_trend [some 120, some 110, some 100] = -10
    ∧ olsSlope [100, 110, 120] = 10 := by
  constructor
  · norm_num [calculate_trend, olsSlope, List.range_succ, List.filterMap_cons,
      List.filterMap_nil, id, List.zip, List.zipWith]
  · norm_num [olsSlope, List.range_succ, List.zip, List.zipWith]

/-- Concrete lifestyle record carrying only `exercise_minutes`. -/
def c7_record : LifestyleRecord := { exercise_minutes := some 30 }

/-- C7 counterexample: a non-empty lifestyle list in which `steps` is
missing from every record yields `avg_steps = 0` in the engineered output,
not the documented lifestyle category default 5000. -/
theorem lifestyle_steps_fallback_c7_counterexample :
    fget (engineer_features (fun _ => 0) { lifestyle_data := [c7_record] }) ("avg_steps") = 0
    ∧ fget default_lifestyle_features ("avg_steps") = 5000
    ∧ (0 : ℚ) ≠ 5000 :=
  ⟨rfl, rfl, by norm_num⟩

theorem extract_lifestyle_no_mixed_ok (sq : ℚ → ℚ) (r : LifestyleRecord)
    (rest : List LifestyleRecord)
    (hmeals : (∀ x ∈ r :: rest, x.meals = none) ∨ (∀ x ∈ r :: rest, x.meals.isSome = true)) :
    ∃ fs, extract_lifestyle_features sq (r :: rest) = .ok fs := by
  unfold extract_lifestyle_features
  dsimp only
  rcases hmeals with hall | hall
  · have h1 : (r :: rest).any (fun x => x.meals.isSome) = false := by
      rw [List.any_eq_false]
      intro x hx
      simp [hall x hx]
    rw [h1, if_neg (by simp)]
    exact ⟨_, rfl⟩
  · have h1 : (r :: rest).any (fun x => x.meals.isSome) = true := by
      rw [List.any_eq_true]
      exact ⟨r, List.mem_cons_self r rest, hall r (List.mem_cons_self r rest)⟩
    have h2 : (r :: rest).any (fun x => x.meals.isNone) = false := by
      rw [List.any_eq_false]
      intro x hx
      have hx' := hall x hx
      cases hm : x.meals with
      | none =>
        rw [hm] at hx'
        simp at hx'
      | some m => simp [hm]
    rw [h1, if_pos rfl, h2, if_neg (by simp)]
    exact ⟨_, rfl⟩

theorem lifestyle_ok_fields (sq : ℚ → ℚ) (r : LifestyleRecord)
    (rest : List LifestyleRecord) (fs : List (String × ℚ))
    (hfs : extract_lifestyle_features sq (r :: rest) = .ok fs) :
    ((∀ x ∈ r :: rest, x.sleep_hours = none) → fget fs ("avg_sleep_hours") = 7)
    ∧ ((∀ x ∈ r :: rest, x.water_intake_ml = none) → fget fs ("avg_water_intake") = 2000)
    ∧ ((∀ x ∈ r :: rest, x.steps = none) → fget fs ("avg_steps") = 0) := by
  unfold extract_lifestyle_features at hfs
  dsimp only at hfs
  split at hfs
  · exact absurd hfs (by simp)
  · injection hfs with hfs
    subst hfs
    refine ⟨?_, ?_, ?_⟩
    · intro hall
      have hany : (r :: rest).any (fun x => x.sleep_hours.isSome) = false := by
        rw [List.any_eq_false]
        intro x hx
        simp [hall x hx]
      simp [fget, fgetD, List.lookup, hany]
    · intro hall
      have hany : (r :: rest).any (fun x => x.water_intake_ml.isSome) = false := by
        rw [List.any_eq_false]
        intro x hx
        simp [hall x hx]
      simp [fget, fgetD, List.lookup, hany]
    · intro hall
      have hany : (r :: rest).any (fun x => x.steps.isSome) = false := by
        rw [List.any_eq_false]
        intro x hx
        simp [hall x hx]
      simp [fget, fgetD, List.lookup, hany]

/-- C7 amended: for every non-empty lifestyle record list in which `meals`
is present on every record or on none (mixed presence raises AttributeError
and aborts feature engineering — see C4), the extractor raises no error and
an entirely-missing sub-field takes that field's inline fallback; for
`sleep_hours` (7) and `water_intake_ml` (2000) the fallback coincides with
the category default, but for `steps` it is 0, not the category default
5000. -/
theorem lifestyle_missing_subfield_c7 (sq : ℚ → ℚ) (r : LifestyleRecord)
    (rest : List LifestyleRecord)
    (hmeals : (∀ x ∈ r :: rest, x.meals = none) ∨ (∀ x ∈ r :: rest, x.meals.isSome = true)) :
    ∃ fs, extract_lifestyle_features sq (r :: rest) = .ok fs
      ∧ ((∀ x ∈ r :: rest, x.sleep_hours = none) → fget fs ("avg_sleep_hours") = 7)
      ∧ ((∀ x ∈ r :: rest, x.water_intake_ml = none) → fget fs ("avg_water_intake") = 2000)
      ∧ ((∀ x ∈ r :: rest, x.steps = none) → fget fs ("avg_steps") = 0)
      ∧ fget default_lifestyle_features ("avg_sleep_hours") = 7
      ∧ fget default_lifestyle_features ("avg_water_intake") = 2000
      ∧ fget default_lifestyle_features ("avg_steps") = 5000 := by
  obtain ⟨fs, hfs⟩ := extract_lifestyle_no_mixed_ok sq r rest hmeals
  obtain ⟨h1, h2, h3⟩ := lifestyle_ok_fields sq r rest fs hfs
  exact ⟨fs, hfs, h1, h2, h3, rfl, rfl, rfl⟩

theorem lifestyle_missing_subfield_c7_witness :
    ((∀ x ∈ [c7_record], x.meals = none)
      ∧ (∀ x ∈ [c7_record], x.sleep_hours = none)
      ∧ (∀ x ∈ [c7_record], x.water_intake_ml = none)
      ∧ (∀ x ∈ [c7_record], x.steps = none))
    ∧ (∃ fs, extract_lifestyle_features (fun _ => 0) [c7_record] = .ok fs
        ∧ ((∀ x ∈ [c7_record], x.sleep_hours = none) → fget fs ("avg_sleep_hours") = 7)
        ∧ ((∀ x ∈ [c7_record], x.water_intake_ml = none) → fget fs ("avg_water_intake") = 2000)
        ∧ ((∀ x ∈ [c7_record], x.steps = none) → fget fs ("avg_steps") = 0)
        ∧ fget default_lifestyle_features ("avg_sleep_hours") = 7
        ∧ fget default_lifestyle_features ("avg_water_intake") = 2000
        ∧ fget default_lifestyle_features ("avg_steps") = 5000) :=
  ⟨⟨by simp [c7_record], by simp [c7_record], by simp [c7_record], by simp [c7_record]⟩,
   lifestyle_missing_subfield_c7 (fun _ => 0) c7_record []
     (Or.inl (by simp [c7_record]))⟩

theorem lookup_cons_ne {β : Type} {k k' : String} (v : β) (l : List (String × β))
    (hne : ¬ k' = k) : ((k, v) :: l).lookup k' = l.lookup k' := by
  simp [List.lookup, beq_false_of_ne hne]

theorem lookup_append_not_mem {β : Type} (A B : List (String × β)) (k : String)
    (h : ∀ p ∈ A, ¬ k = p.1) : (A ++ B).lookup k = B.lookup k := by
  induction A with
  | nil => rfl
  | cons p t ih =>
    obtain ⟨k, v⟩ := p
    rw [List.cons_append, lookup_cons_ne _ _ (h (k, v) (List.mem_cons_self _ t)), ih]
    intro q hq
    exact h q (List.mem_cons_of_mem _ hq)

theorem mem_guard_list {s : String} (A B C E : List String) :
    s ∈ (if A ++ B ++ C ++ [s] ++ E = [] then ["No significant risk factors identified"]
         else A ++ B ++ C ++ [s] ++ E) := by
  rw [if_neg]
  · simp
  · simp

theorem sedentary_in_risk_factors (f : List (String × ℚ))
    (hsed : fget f ("sedentary_lifestyle") = 1) :
    "Sedentary lifestyle" ∈ identify_risk_factors ("diabetes") f := by
  unfold identify_risk_factors
  dsimp only
  rw [if_pos rfl, hsed, if_pos rfl]
  exact mem_guard_list _ _ _ _

/-- Concrete C10 input: one lab record with glucose 126, a diabetes family
history, and zero lifestyle records. -/
def c10_health : HealthData :=
  { lab_data := [{ glucose := some 126 }]
    lifestyle_data := []
    mental_health_data := []
    family_history := some { diabetes := ["mother"] } }

/-- C10 counterexample: with zero lifestyle records (so
`sedentary_lifestyle` defaults to 1), glucose 126 and a diabetes family
history, the pre-sedentary diabetes score is 0.95 and the fallback result
is capped at 1.0 — the sedentary step adds 0.05, not 0.1. -/
theorem sedentary_increment_c10_counterexample :
    fget (engineer_features (fun _ => 0) c10_health) ("sedentary_lifestyle") = 1
    ∧ diabetes_pre_sedentary (engineer_features (fun _ => 0) c10_health) = 19/20
    ∧ rule_based_body (engineer_features (fun _ => 0) c10_health) ("diabetes") = 1
    ∧ (1 : ℚ) ≠ 19/20 + 1/10 := by
  have h1 : fgetD (engineer_features (fun _ => 0) c10_health) ("glucose_latest") 0 = 126 := rfl
  have h2 : fgetD (engineer_features (fun _ => 0) c10_health) ("hba1c_latest") 0 = 0 := rfl
  have hf : fgetD (engineer_features (fun _ => 0) c10_health) ("has_family_diabetes") 0 = 1 := rfl
  have hs : fgetD (engineer_features (fun _ => 0) c10_health) ("sedentary_lifestyle") 0 = 1 := rfl
  have hpre : diabetes_pre_sedentary (engineer_features (fun _ => 0) c10_health) = 19/20 := by
    unfold diabetes_pre_sedentary
    rw [h1, h2, hf]
    norm_num [min_def]
  refine ⟨hs, hpre, ?_, by norm_num⟩
  unfold rule_based_body
  dsimp only
  rw [if_pos rfl, hs, if_pos rfl, hpre]
  norm_num [min_def]

/-- C10 amended: whenever the lifestyle category has zero records the
default sub-vector sets `sedentary_lifestyle = 1`, so 'Sedentary lifestyle'
is appended to the diabetes contributing factors, and the rule-based
diabetes fallback adds 0.1 capped at 1.0 — the result is
`min (pre + 0.1) 1` where `pre` is the pre-sedentary score — for every
combination of the other categories. -/
theorem sedentary_default_c10 (sq : ℚ → ℚ) (h : HealthData)
    (hl : h.lifestyle_data = []) :
    fget (engineer_features sq h) ("sedentary_lifestyle") = 1
    ∧ "Sedentary lifestyle" ∈
        identify_risk_factors ("diabetes") (engineer_features sq h)
    ∧ rule_based_body (engineer_features sq h) ("diabetes")
        = min (diabetes_pre_sedentary (engineer_features sq h) + 0.1) 1
    ∧ (∀ f : List (String × ℚ), fgetD f ("sedentary_lifestyle") 0 = 1 →
        rule_based_body f ("diabetes") = min (diabetes_pre_sedentary f + 0.1) 1) := by
  have hrule : ∀ f : List (String × ℚ), fgetD f ("sedentary_lifestyle") 0 = 1 →
      rule_based_body f ("diabetes") = min (diabetes_pre_sedentary f + 0.1) 1 := by
    intro f hsd
    unfold rule_based_body
    dsimp only
    rw [if_pos rfl, hsd, if_pos rfl]
  have hsed : fget (engineer_features sq h) ("sedentary_lifestyle") = 1 := by
    unfold fget fgetD
    rw [engineer_features_of_ok sq h default_lifestyle_features (by rw [hl]; rfl)]
    rw [List.append_assoc, List.append_assoc]
    rw [lookup_append_not_mem _ _ _ ?notlab]
    case notlab =>
      intro p hp hk
      have hmem : p.1 ∈ labSchema := mem_fst_of_keys (extract_lab_keys sq h.lab_data) p hp
      rw [← hk] at hmem
      exact absurd hmem (by decide)
    rfl
  exact ⟨hsed, sedentary_in_risk_factors _ hsed, hrule _ hsed, hrule⟩

theorem sedentary_default_c10_witness :
    fget (engineer_features (fun _ => 0) c10_health) ("sedentary_lifestyle") = 1
    ∧ "Sedentary lifestyle" ∈
        identify_risk_factors ("diabetes") (engineer_features (fun _ => 0) c10_health)
    ∧ rule_based_body (engineer_features (fun _ => 0) c10_health) ("diabetes")
        = min (diabetes_pre_sedentary (engineer_features (fun _ => 0) c10_health) + 0.1) 1
    ∧ (∀ f : List (String × ℚ), fgetD f ("sedentary_lifestyle") 0 = 1 →
        rule_based_body f ("diabetes") = min (diabetes_pre_sedentary f + 0.1) 1) :=
  sedentary_default_c10 (fun _ => 0) c10_health rfl
